import Mathlib

/-
Verification of the sound-manager browser extension (src/browser-adapter.js and
src/popup.js) against its design specification.

The JavaScript is shallowly embedded.  A browser tab table together with the
host failure modes the code reacts to (runtime.lastError on a tab update, a
failing tab query) is a `Host` value; each promise-returning adapter method
becomes a function from a `Host` (and its arguments) to the new `Host` paired
with an `Except` result, the `.error` branch standing for a rejected promise.
Async functions of the popup script become functions on an explicit
`PopupState`; the one place where the popup script starts an async computation
without awaiting it (`updateGlobalMuteButton` calling
`checkAllTabsMutedState()`) is embedded with the event-loop ordering JavaScript
gives it: the value assigned by the un-awaited call lands in the state only
after the synchronous remainder of the caller has read the old value.
-/

set_option linter.all false

namespace SoundManager

/-- MutedInfo record of a chrome tab: the host-confirmed muted flag. -/
structure MutedInfo where
  muted : Bool
deriving DecidableEq

/-- Snapshot of a browser tab as reported by the host tab API.  `favIconUrl`
and `mutedInfo` can be absent on a tab record, hence the `Option`s. -/
structure Tab where
  id : Nat
  windowId : Nat
  title : String
  favIconUrl : Option String
  audible : Bool
  mutedInfo : Option MutedInfo
deriving DecidableEq

/-- Failure modes of an adapter operation.  `platform` carries the message of
the host `runtime.lastError`; `noActiveTab` is the rejection with
`Error("No active tab found")` in `getCurrentTab`; `scriptError` stands for the
TypeError that the unguarded JavaScript access `tab.mutedInfo.muted` raises
when `mutedInfo` is absent. -/
inductive AdapterError where
  | platform (msg : String)
  | noActiveTab
  | scriptError
deriving DecidableEq

/-- The host browser state as the extension observes it: the tab table,
the ids whose `tabs.update` requests fail with a `runtime.lastError`, and a
flag making `tabs.query` calls fail with a `runtime.lastError`. -/
structure Host where
  tabs : List Tab
  failing : List Nat
  queryFails : Bool
deriving DecidableEq

/-- Effect of the host applying `tabs.update(tabId, {muted: m})` to one tab
record: the host sets `mutedInfo.muted` to the requested value. -/
def applyMutedUpdate (t : Tab) (m : Bool) : Tab :=
  { t with mutedInfo := some { muted := m } }

/-- BrowserAdapter.getAllTabs (browser-adapter.js:36-46):
`tabs.query({})`, rejecting with the host lastError when the query fails. -/
def getAllTabs (h : Host) : Except AdapterError (List Tab) :=
  if h.queryFails then .error (.platform "query failed") else .ok h.tabs

/-- BrowserAdapter.getSoundTabs (browser-adapter.js:52-62):
`tabs.query({audible: true})`. -/
def getSoundTabs (h : Host) : Except AdapterError (List Tab) :=
  if h.queryFails then .error (.platform "query failed")
  else .ok (h.tabs.filter (fun t => t.audible))

/-- BrowserAdapter.getCurrentTab (browser-adapter.js:68-80), over the outcome
of the host query `tabs.query({active: true, currentWindow: true})`: a host
lastError is re-thrown as a platform error, an empty result list rejects with
`Error("No active tab found")`, otherwise `tabs[0]` is resolved. -/
def getCurrentTab (q : Except String (List Tab)) : Except AdapterError Tab :=
  match q with
  | .error msg => .error (.platform msg)
  | .ok [] => .error .noActiveTab
  | .ok (t :: _) => .ok t

/-- Host primitive `tabs.get(tabId)`: the tab with that id, or a lastError
when no such tab exists. -/
def tabsGet (h : Host) (tabId : Nat) : Except AdapterError Tab :=
  match h.tabs.find? (fun t => t.id == tabId) with
  | some t => .ok t
  | none => .error (.platform "no tab with id")

/-- Host primitive `tabs.update(tabId, {muted: m})`: fails with a lastError
when the id is marked failing or no tab has the id; otherwise every record
with the id is updated and the updated record is passed to the callback. -/
def tabsUpdate (h : Host) (tabId : Nat) (m : Bool) :
    Host × Except AdapterError Tab :=
  if h.failing.contains tabId then
    (h, .error (.platform "update failed"))
  else
    match h.tabs.find? (fun t => t.id == tabId) with
    | none => (h, .error (.platform "no tab with id"))
    | some t =>
        ({ h with
            tabs := h.tabs.map (fun u =>
              if u.id == tabId then applyMutedUpdate u m else u) },
          .ok (applyMutedUpdate t m))

/-- BrowserAdapter.setMuteState (browser-adapter.js:115-125):
`tabs.update(tabId, {muted})`, resolving with `updatedTab.mutedInfo.muted`,
the host-confirmed value. -/
def setMuteState (h : Host) (tabId : Nat) (m : Bool) :
    Host × Except AdapterError Bool :=
  match tabsUpdate h tabId m with
  | (h1, .ok u) =>
      match u.mutedInfo with
      | some mi => (h1, .ok mi.muted)
      | none => (h1, .error .scriptError)
  | (h1, .error e) => (h1, .error e)

/-- BrowserAdapter.toggleMuteState (browser-adapter.js:87-107):
`tabs.get(tabId)`, then `tabs.update(tabId, {muted: !tab.mutedInfo.muted})`,
resolving with `updatedTab.mutedInfo.muted`.  The access `tab.mutedInfo.muted`
is unguarded in the source, so a record without `mutedInfo` fails with
`scriptError` instead of toggling. -/
def toggleMuteState (h : Host) (tabId : Nat) :
    Host × Except AdapterError Bool :=
  match tabsGet h tabId with
  | .error e => (h, .error e)
  | .ok tab =>
      match tab.mutedInfo with
      | none => (h, .error .scriptError)
      | some mi =>
          match tabsUpdate h tabId (!mi.muted) with
          | (h1, .ok u) =>
              match u.mutedInfo with
              | some mi2 => (h1, .ok mi2.muted)
              | none => (h1, .error .scriptError)
          | (h1, .error e) => (h1, .error e)

/-- One `setMuteState` per id, all fired before the join, results collected
with `Promise.all`: every update takes effect on the host regardless of the
others, and the aggregate result is `.ok` of the per-tab confirmed values only
when every update succeeded, `.error` as soon as any one failed. -/
def bulkSetMuted (h : Host) (ids : List Nat) (m : Bool) :
    Host × Except AdapterError (List Bool) :=
  match ids with
  | [] => (h, .ok [])
  | tabId :: rest =>
      match setMuteState h tabId m with
      | (h1, r1) =>
          match bulkSetMuted h1 rest m with
          | (h2, rs) =>
              match r1, rs with
              | .ok b, .ok bs => (h2, .ok (b :: bs))
              | .error e, _ => (h2, .error e)
              | .ok _, .error e => (h2, .error e)

/-- BrowserAdapter.muteAllExcept (browser-adapter.js:132-146): fetch all tabs,
then `setMuteState(tab.id, true)` for every tab whose id differs from
`exceptTabId`, joined with `Promise.all`. -/
def muteAllExcept (h : Host) (exceptTabId : Nat) :
    Host × Except AdapterError (List Bool) :=
  match getAllTabs h with
  | .error e => (h, .error e)
  | .ok allTabs =>
      bulkSetMuted h
        ((allTabs.filter (fun t => t.id != exceptTabId)).map (fun t => t.id))
        true

/-- BrowserAdapter.muteAll (browser-adapter.js:152-164): fetch all tabs, then
`setMuteState(tab.id, true)` for each, joined with `Promise.all`. -/
def muteAll (h : Host) : Host × Except AdapterError (List Bool) :=
  match getAllTabs h with
  | .error e => (h, .error e)
  | .ok allTabs => bulkSetMuted h (allTabs.map (fun t => t.id)) true

/-- BrowserAdapter.unmuteAll (browser-adapter.js:170-182): fetch all tabs,
then `setMuteState(tab.id, false)` for each, joined with `Promise.all`. -/
def unmuteAll (h : Host) : Host × Except AdapterError (List Bool) :=
  match getAllTabs h with
  | .error e => (h, .error e)
  | .ok allTabs => bulkSetMuted h (allTabs.map (fun t => t.id)) false

/-- The per-tab test on popup.js:80: `tab.mutedInfo && tab.mutedInfo.muted`.
A record without `mutedInfo` counts as not muted. -/
def tabMutedChecked (t : Tab) : Bool :=
  match t.mutedInfo with
  | some mi => mi.muted
  | none => false

/-- The expression assigned on popup.js:80:
`allTabs.length > 0 && allTabs.every(tab => tab.mutedInfo && tab.mutedInfo.muted)`. -/
def allTabsMutedOf (tabs : List Tab) : Bool :=
  decide (0 < tabs.length) && tabs.all tabMutedChecked

/-- checkAllTabsMutedState (popup.js:77-85): query all tabs and derive the
allTabsMuted flag; the catch branch sets the flag to false when the query
fails. -/
def checkAllTabsMutedState (h : Host) : Bool :=
  match getAllTabs h with
  | .ok allTabs => allTabsMutedOf allTabs
  | .error _ => false

/-- The label chosen by the branch structure of updateGlobalMuteButton
(popup.js:58-71) from an allTabsMuted value and the current-tab snapshot:
`allTabsMuted` first, then `currentTab && currentTab.audible`, else the
default. -/
def globalMuteLabel (allTabsMuted : Bool) (currentTab : Option Tab) : String :=
  if allTabsMuted then "Unmute all"
  else
    match currentTab with
    | some t => if t.audible then "Mute others" else "Mute all"
    | none => "Mute all"

/-- A rendered tab row (the element built by createTabElement,
popup.js:143-185): the data the DOM element displays. -/
structure TabElement where
  tabId : Nat
  faviconSrc : String
  title : String
  muteTitle : String
  muteIconSrc : String
deriving DecidableEq

/-- createTabElement (popup.js:143-185).  `tab.favIconUrl ||
'icons/default-favicon.png'` falls back on an absent or empty (falsy) URL;
`tab.mutedInfo.muted` on popup.js:165 is unguarded, so a record without
`mutedInfo` makes the construction throw, embedded as `none`. -/
def createTabElement (tab : Tab) : Option TabElement :=
  match tab.mutedInfo with
  | none => none
  | some mi =>
      some
        { tabId := tab.id
          faviconSrc :=
            match tab.favIconUrl with
            | some u => if u == "" then "icons/default-favicon.png" else u
            | none => "icons/default-favicon.png"
          title := tab.title
          muteTitle := if mi.muted then "Unmute" else "Mute"
          muteIconSrc := if mi.muted then "icons/unmute.png" else "icons/mute.png" }

/-- A child of the tabs-list container after rendering: either the single
quiet placeholder div (popup.js:123) or one tab row. -/
inductive RenderedNode where
  | quiet
  | row (el : TabElement)
deriving DecidableEq

/-- The forEach loop of renderTabsList (popup.js:130-133): one element per
tab, in list order; a throw inside createTabElement aborts the whole
rendering, embedded as `none`. -/
def renderRows : List Tab → Option (List RenderedNode)
  | [] => some []
  | t :: ts =>
      match createTabElement t, renderRows ts with
      | some el, some rest => some (RenderedNode.row el :: rest)
      | _, _ => none

/-- renderTabsList (popup.js:118-136): an empty list renders the single quiet
placeholder, otherwise one row per tab in host order. -/
def renderTabsList (tabs : List Tab) : Option (List RenderedNode) :=
  if tabs.length == 0 then some [RenderedNode.quiet] else renderRows tabs

/-- Content of the tabs-list container as the popup script sets it. -/
inductive TabsListView where
  | loading
  | errorView (e : AdapterError)
  | rendered (nodes : List RenderedNode)
  | crashed
deriving DecidableEq

/-- loadSoundTabs (popup.js:41-49): fetch the audible tabs and render them;
the catch branch replaces the list with an error div. -/
def loadSoundTabs (h : Host) : TabsListView :=
  match getSoundTabs h with
  | .error e => .errorView e
  | .ok soundTabs =>
      match renderTabsList soundTabs with
      | some nodes => .rendered nodes
      | none => .crashed

/-- State of the popup script (popup.js:8-11 and the DOM the handlers write):
the captured currentTab snapshot, the allTabsMuted variable (initialized to
false on popup.js:10), the text and css class of the global button, and the
tabs-list contents. -/
structure PopupState where
  currentTab : Option Tab
  allTabsMuted : Bool
  globalLabel : String
  globalUnmuteClass : Bool
  listView : TabsListView
deriving DecidableEq

/-- updateGlobalMuteButton (popup.js:54-72).  The call
`checkAllTabsMutedState()` on popup.js:56 is async and is not awaited: the
branch on popup.js:58 reads the value `allTabsMuted` had before the call, and
the recomputed flag is stored by the resumed async function only after the
label has been written.  Hence the label and css class come from the stale
`s.allTabsMuted` while the new flag is recorded for later reads. -/
def updateGlobalMuteButton (h : Host) (s : PopupState) : PopupState :=
  { s with
      globalLabel := globalMuteLabel s.allTabsMuted s.currentTab
      globalUnmuteClass := s.allTabsMuted
      allTabsMuted := checkAllTabsMutedState h }

/-- handleGlobalMuteButtonClick (popup.js:90-112): pick the bulk action from
the stored allTabsMuted flag and the currentTab snapshot; on success reload
the sound tabs and update the global button, on failure only log.  By click
time the un-awaited query started at the previous render has resolved, so
`s.allTabsMuted` holds the flag derived from the host state at the previous
render. -/
def handleGlobalMuteButtonClick (h : Host) (s : PopupState) :
    Host × PopupState :=
  match
    (if s.allTabsMuted then unmuteAll h
     else
       match s.currentTab with
       | some ct => if ct.audible then muteAllExcept h ct.id else muteAll h
       | none => muteAll h)
  with
  | (h1, .ok _) =>
      (h1, updateGlobalMuteButton h1 { s with listView := loadSoundTabs h1 })
  | (h1, .error _) => (h1, s)

/-- Example tab: audible, not muted. -/
def tabA : Tab :=
  { id := 1, windowId := 1, title := "Music", favIconUrl := some "icons/a.png",
    audible := true, mutedInfo := some { muted := false } }

/-- Example tab: silent and muted. -/
def tabB : Tab :=
  { id := 2, windowId := 1, title := "Muted page", favIconUrl := none,
    audible := false, mutedInfo := some { muted := true } }

/-- Example tab whose record carries no mutedInfo field. -/
def tabC : Tab :=
  { id := 3, windowId := 1, title := "Bare page", favIconUrl := none,
    audible := false, mutedInfo := none }

/-- Example tab: silent and not muted. -/
def tabD : Tab :=
  { id := 4, windowId := 2, title := "Docs", favIconUrl := some "icons/d.png",
    audible := false, mutedInfo := some { muted := false } }

/-- Host with one audible unmuted tab and one muted tab, no failures. -/
def hostAB : Host := { tabs := [tabA, tabB], failing := [], queryFails := false }

/-- Host like hostAB but updates of tab 2 fail. -/
def hostFail2 : Host := { tabs := [tabA, tabB], failing := [2], queryFails := false }

/-- Host whose every tab is muted. -/
def hostMuted : Host := { tabs := [tabB], failing := [], queryFails := false }

/-- Host with one unmuted tab and one audible unmuted tab. -/
def hostAD : Host := { tabs := [tabA, tabD], failing := [], queryFails := false }

/-- Host with a single silent unmuted tab. -/
def hostD : Host := { tabs := [tabD], failing := [], queryFails := false }

/-- Host whose tab query fails. -/
def hostQueryFail : Host := { tabs := [tabA], failing := [], queryFails := true }

/-- The popup state right after the script loads: allTabsMuted is false
(popup.js:10), nothing rendered yet. -/
def popupFresh : PopupState :=
  { currentTab := some tabB, allTabsMuted := false, globalLabel := "",
    globalUnmuteClass := false, listView := .loading }

/-- The popup state over hostD once the initial render has settled: the
un-awaited query of that render has resolved, so allTabsMuted holds the flag
derived from hostD. -/
def popupAfterD : PopupState :=
  { currentTab := some tabD, allTabsMuted := checkAllTabsMutedState hostD,
    globalLabel := "Mute all", globalUnmuteClass := false,
    listView := .rendered [RenderedNode.quiet] }

/-- The mute control of one rendered row: button tooltip and icon source. -/
structure MuteControl where
  title : String
  iconSrc : String
deriving DecidableEq

/-- Outcome of a row-toggle click: the new host state, the row control after
the handler, the popup state after the handler, and whether the catch branch
logged an error. -/
structure ToggleOutcome where
  host : Host
  control : MuteControl
  popup : PopupState
  logged : Bool
deriving DecidableEq

/-- toggleMute (popup.js:193-206): await toggleMuteState; on success set the
button title and icon from the confirmed value and update the global button;
on failure log the error and leave the control untouched. -/
def toggleMute (h : Host) (tabId : Nat) (ctl : MuteControl) (s : PopupState) :
    ToggleOutcome :=
  match toggleMuteState h tabId with
  | (h1, .ok isMuted) =>
      { host := h1
        control :=
          { title := if isMuted then "Unmute" else "Mute"
            iconSrc := if isMuted then "icons/unmute.png" else "icons/mute.png" }
        popup := updateGlobalMuteButton h1 s
        logged := false }
  | (h1, .error _) =>
      { host := h1, control := ctl, popup := s, logged := true }

/-- Example row control as rendered for an unmuted tab. -/
def ctl0 : MuteControl := { title := "Mute", iconSrc := "icons/mute.png" }

/-- The guarded per-tab test holds exactly on records carrying muted = true. -/
theorem tabMutedChecked_eq_true_iff (t : Tab) :
    tabMutedChecked t = true ↔ t.mutedInfo = some { muted := true } := by
  cases h : t.mutedInfo with
  | none => simp [tabMutedChecked, h]
  | some mi => cases mi with
    | mk muted => simp [tabMutedChecked, h]

/-- C2: for a nonempty snapshot the derived allTabsMuted flag is true iff
every tab of the snapshot carries muted = true; for the empty snapshot the
flag is false (vacuous truth rejected by the length guard). -/
theorem allTabsMutedOf_spec (tabs : List Tab) :
    (tabs ≠ [] →
      (allTabsMutedOf tabs = true ↔
        ∀ t ∈ tabs, t.mutedInfo = some { muted := true })) ∧
    allTabsMutedOf ([] : List Tab) = false := by
  constructor
  · intro hne
    unfold allTabsMutedOf
    rw [Bool.and_eq_true, decide_eq_true_iff, List.all_eq_true]
    constructor
    · intro hall t ht
      exact (tabMutedChecked_eq_true_iff t).mp (hall.2 t ht)
    · intro hall
      exact ⟨List.length_pos.mpr hne,
        fun t ht => (tabMutedChecked_eq_true_iff t).mpr (hall t ht)⟩
  · rfl

/-- C2 witness: concrete evaluation on the one-element snapshot [tabB]. -/
theorem allTabsMutedOf_spec_witness :
    allTabsMutedOf [tabB] = true ↔
      ∀ t ∈ [tabB], t.mutedInfo = some { muted := true } :=
  (allTabsMutedOf_spec [tabB]).1 (by decide)

/-- C10: a record without mutedInfo is counted as not muted by the guarded
test of popup.js:80, and its presence in the snapshot forces the derived flag
to false, whatever the other tabs carry. -/
theorem allTabsMutedOf_missing_mutedInfo (tabs : List Tab) (t : Tab)
    (ht : t ∈ tabs) (hnone : t.mutedInfo = none) :
    tabMutedChecked t = false ∧ allTabsMutedOf tabs = false := by
  have hc : tabMutedChecked t = false := by simp [tabMutedChecked, hnone]
  refine ⟨hc, ?_⟩
  cases hall : tabs.all tabMutedChecked with
  | true =>
      have := List.all_eq_true.mp hall t ht
      rw [hc] at this
      exact absurd this (by simp)
  | false => simp [allTabsMutedOf, hall]

/-- C10 witness: the snapshot [tabB, tabC], where tabB is muted and tabC has
no mutedInfo field. -/
theorem allTabsMutedOf_missing_mutedInfo_witness :
    tabMutedChecked tabC = false ∧ allTabsMutedOf [tabB, tabC] = false :=
  allTabsMutedOf_missing_mutedInfo [tabB, tabC] tabC (by decide) rfl

/-- C9: when the all-tabs query fails, checkAllTabsMutedState swallows the
error and yields false, and a false flag never renders the Unmute all label:
whatever the current tab, the button shows Mute all or Mute others. -/
theorem checkAllTabsMutedState_queryFailure (h : Host)
    (hq : h.queryFails = true) :
    checkAllTabsMutedState h = false ∧
    ∀ ct : Option Tab,
      globalMuteLabel (checkAllTabsMutedState h) ct = "Mute all" ∨
      globalMuteLabel (checkAllTabsMutedState h) ct = "Mute others" := by
  have h1 : checkAllTabsMutedState h = false := by
    simp [checkAllTabsMutedState, getAllTabs, hq]
  refine ⟨h1, ?_⟩
  intro ct
  rw [h1]
  cases ct with
  | none => left; rfl
  | some t =>
      cases ha : t.audible with
      | true => right; simp [globalMuteLabel, ha]
      | false => left; simp [globalMuteLabel, ha]

/-- C9 witness: concrete evaluation on a host whose query fails. -/
theorem checkAllTabsMutedState_queryFailure_witness :
    checkAllTabsMutedState hostQueryFail = false ∧
    (globalMuteLabel (checkAllTabsMutedState hostQueryFail) (some tabB) = "Mute all" ∨
     globalMuteLabel (checkAllTabsMutedState hostQueryFail) (some tabB) = "Mute others") :=
  ⟨(checkAllTabsMutedState_queryFailure hostQueryFail rfl).1,
   (checkAllTabsMutedState_queryFailure hostQueryFail rfl).2 (some tabB)⟩

/-- C7: getCurrentTab fails with the no-active-tab error exactly when the
host query resolved with an empty tab list; a nonempty query result resolves
with its first tab and never fails. -/
theorem getCurrentTab_spec (q : Except String (List Tab)) :
    (getCurrentTab q = .error .noActiveTab ↔ q = .ok []) ∧
    ∀ t ts, q = .ok (t :: ts) → getCurrentTab q = .ok t := by
  constructor
  · cases q with
    | error msg => simp [getCurrentTab]
    | ok tabs => cases tabs with
      | nil => simp [getCurrentTab]
      | cons t ts => simp [getCurrentTab]
  · intro t ts hq
    subst hq
    rfl

/-- C7 witness: a query resolving with one active tab. -/
theorem getCurrentTab_spec_witness : getCurrentTab (.ok [tabA]) = .ok tabA :=
  (getCurrentTab_spec (.ok [tabA])).2 tabA [] rfl

/-- C6: the mute control of a row changes only on a host-confirmed result: a
failed toggle is logged and leaves the control exactly as it was, while a
successful toggle sets title and icon precisely from the confirmed value. -/
theorem toggleMute_display (h : Host) (tabId : Nat) (ctl : MuteControl)
    (s : PopupState) :
    (∀ h1 e, toggleMuteState h tabId = (h1, .error e) →
      (toggleMute h tabId ctl s).control = ctl ∧
      (toggleMute h tabId ctl s).logged = true) ∧
    (∀ h1 b, toggleMuteState h tabId = (h1, .ok b) →
      (toggleMute h tabId ctl s).control =
        { title := if b then "Unmute" else "Mute"
          iconSrc := if b then "icons/unmute.png" else "icons/mute.png" } ∧
      (toggleMute h tabId ctl s).logged = false) := by
  constructor
  · intro h1 e he
    simp [toggleMute, he]
  · intro h1 b hb
    simp [toggleMute, hb]

/-- C6 witness: toggling a nonexistent tab id on hostAB fails and keeps the
control; toggling the unmuted tab 1 succeeds with confirmed value true and
renders the Unmute control. -/
theorem toggleMute_display_witness :
    ((toggleMute hostAB 99 ctl0 popupFresh).control = ctl0 ∧
      (toggleMute hostAB 99 ctl0 popupFresh).logged = true) ∧
    (toggleMute hostAB 1 ctl0 popupFresh).control =
      { title := "Unmute", iconSrc := "icons/unmute.png" } ∧
    (toggleMute hostAB 1 ctl0 popupFresh).logged = false :=
  ⟨(toggleMute_display hostAB 99 ctl0 popupFresh).1 hostAB
      (.platform "no tab with id") rfl,
   (toggleMute_display hostAB 1 ctl0 popupFresh).2
      (toggleMuteState hostAB 1).1 true rfl⟩

/-- Finding a tab by id in a list mapped through an id-preserving function
finds the image of the tab found in the original list. -/
theorem find?_map_idPreserving (tabs : List Tab) (p : Nat) (f : Tab → Tab)
    (hf : ∀ u, (f u).id = u.id) :
    (tabs.map f).find? (fun u => u.id == p)
      = (tabs.find? (fun u => u.id == p)).map f := by
  induction tabs with
  | nil => rfl
  | cons t ts ih =>
      rw [List.map_cons]
      cases ht : (t.id == p) with
      | true =>
          rw [List.find?_cons_of_pos ts ht,
            List.find?_cons_of_pos (ts.map f) (by rw [hf]; exact ht)]
          rfl
      | false =>
          rw [List.find?_cons_of_neg ts (by simp [ht]),
            List.find?_cons_of_neg (ts.map f) (by simp [hf, ht]), ih]

/-- Unfolding of a successful toggleMuteState: the read-then-write sequence
negates the read value on the host and confirms the negation. -/
theorem toggleMuteState_step (h : Host) (tabId : Nat) (t : Tab)
    (b : Bool)
    (hfind : h.tabs.find? (fun u => u.id == tabId) = some t)
    (hmi : t.mutedInfo = some { muted := b })
    (hok : h.failing.contains tabId = false) :
    toggleMuteState h tabId =
      ({ h with tabs := h.tabs.map (fun u =>
          if u.id == tabId then applyMutedUpdate u (!b) else u) },
        .ok (!b)) := by
  have hok' : tabId ∉ h.failing := by
    intro hmem
    rw [List.contains_eq_any_beq] at hok
    have : h.failing.any (tabId == ·) = true :=
      List.any_eq_true.mpr ⟨tabId, hmem, by simp⟩
    rw [this] at hok
    exact absurd hok (by decide)
  unfold toggleMuteState tabsGet tabsUpdate
  rw [hfind]
  simp [hmi, hok', applyMutedUpdate]

/-- C3: two successive toggles of the same tab, each awaiting host
confirmation, restore the tab's original muted flag: on a host where tab t
exists with a muted record and updates to it succeed, the first toggle
confirms the negated value, the second confirms the original value, and the
tab record read back afterwards carries its original muted flag. -/
theorem toggleMuteState_involution (h : Host) (tabId : Nat) (t : Tab)
    (mi : MutedInfo) (hget : tabsGet h tabId = .ok t)
    (hmi : t.mutedInfo = some mi)
    (hok : h.failing.contains tabId = false) :
    ∃ h1 h2, toggleMuteState h tabId = (h1, .ok (!mi.muted)) ∧
      toggleMuteState h1 tabId = (h2, .ok mi.muted) ∧
      ∃ t2, tabsGet h2 tabId = .ok t2 ∧ t2.mutedInfo = some mi := by
  have hfind : h.tabs.find? (fun u => u.id == tabId) = some t := by
    unfold tabsGet at hget
    cases hf : h.tabs.find? (fun u => u.id == tabId) with
    | none => rw [hf] at hget; exact absurd hget (by simp)
    | some u => rw [hf] at hget; simp at hget; rw [hget]
  have hteq : t.id = tabId := by
    have hp := List.find?_some hfind
    simpa using hp
  have hid : ∀ u : Tab,
      ((fun u => if u.id == tabId then applyMutedUpdate u (!mi.muted) else u) u).id
        = u.id := by
    intro u
    by_cases hu : (u.id == tabId) = true
    · simp [hu, applyMutedUpdate]
    · simp [Bool.eq_false_iff.mpr hu]
  have hid2 : ∀ u : Tab,
      ((fun u => if u.id == tabId then applyMutedUpdate u (!(!mi.muted)) else u) u).id
        = u.id := by
    intro u
    by_cases hu : (u.id == tabId) = true
    · simp [hu, applyMutedUpdate]
    · simp [Bool.eq_false_iff.mpr hu]
  have hstep1 := toggleMuteState_step h tabId t mi.muted hfind hmi hok
  have hfind1 :
      (h.tabs.map (fun u =>
          if u.id == tabId then applyMutedUpdate u (!mi.muted) else u)).find?
        (fun u => u.id == tabId)
      = some (applyMutedUpdate t (!mi.muted)) := by
    rw [find?_map_idPreserving h.tabs tabId _ hid, hfind]
    simp [hteq]
  have hstep2 := toggleMuteState_step
    { h with tabs := h.tabs.map (fun u =>
        if u.id == tabId then applyMutedUpdate u (!mi.muted) else u) }
    tabId (applyMutedUpdate t (!mi.muted)) (!mi.muted) hfind1 rfl hok
  refine ⟨(toggleMuteState h tabId).1,
    (toggleMuteState (toggleMuteState h tabId).1 tabId).1, ?_, ?_, ?_⟩
  · rw [hstep1]
  · rw [hstep1, hstep2]
    simp
  · rw [hstep1, hstep2]
    refine ⟨applyMutedUpdate (applyMutedUpdate t (!mi.muted)) (!(!mi.muted)), ?_, ?_⟩
    · unfold tabsGet
      rw [find?_map_idPreserving _ tabId _ hid2, hfind1]
      simp [applyMutedUpdate, hteq]
    · simp [applyMutedUpdate]

/-- C3 witness: tab 1 of hostAB starts unmuted; toggling twice confirms true
then false and the record read back is unmuted again. -/
theorem toggleMuteState_involution_witness :
    ∃ h1 h2, toggleMuteState hostAB 1 = (h1, .ok true) ∧
      toggleMuteState h1 1 = (h2, .ok false) ∧
      ∃ t2, tabsGet h2 1 = .ok t2 ∧ t2.mutedInfo = some { muted := false } :=
  toggleMuteState_involution hostAB 1 tabA { muted := false } rfl rfl rfl

/-- Closed description of setMuteState: a failing or unknown id rejects and
leaves the host unchanged, otherwise the matching records are updated and the
requested value is confirmed back. -/
theorem setMuteState_eq (h : Host) (tabId : Nat) (m : Bool) :
    setMuteState h tabId m =
      if h.failing.contains tabId then (h, .error (.platform "update failed"))
      else
        match h.tabs.find? (fun t => t.id == tabId) with
        | none => (h, .error (.platform "no tab with id"))
        | some _ =>
            ({ h with tabs := h.tabs.map (fun u =>
                if u.id == tabId then applyMutedUpdate u m else u) },
              .ok m) := by
  unfold setMuteState tabsUpdate
  cases hf : h.failing.contains tabId with
  | true => simp [hf]
  | false =>
      cases hfind : h.tabs.find? (fun t => t.id == tabId) with
      | none => simp [hf, hfind]
      | some t => simp [hf, hfind, applyMutedUpdate]

/-- setMuteState never changes the failing set of the host. -/
theorem setMuteState_failing (h : Host) (tabId : Nat) (m : Bool) :
    (setMuteState h tabId m).1.failing = h.failing := by
  rw [setMuteState_eq]
  cases hf : h.failing.contains tabId with
  | true => simp [hf]
  | false =>
      cases hfind : h.tabs.find? (fun t => t.id == tabId) with
      | none => simp [hf, hfind]
      | some t => simp [hf, hfind]

/-- A list of naturals whose contains test is false does not hold the
element. -/
theorem contains_false_not_mem {l : List Nat} {a : Nat}
    (h : l.contains a = false) : a ∉ l := by
  intro hm
  rw [List.contains_eq_any_beq] at h
  have hany : l.any (a == ·) = true := List.any_eq_true.mpr ⟨a, hm, by simp⟩
  rw [hany] at h
  exact absurd h (by decide)

/-- A list of naturals whose contains test is true holds the element. -/
theorem contains_true_mem {l : List Nat} {a : Nat}
    (h : l.contains a = true) : a ∈ l := by
  rw [List.contains_eq_any_beq] at h
  obtain ⟨x, hx, hbeq⟩ := List.any_eq_true.mp h
  have hax : a = x := by simpa using hbeq
  rw [hax]
  exact hx

/-- Peeling one id off a bulk mute: the final host is the one reached by
firing the remaining updates after the first. -/
theorem bulkSetMuted_cons_fst (h : Host) (i : Nat) (rest : List Nat)
    (m : Bool) :
    (bulkSetMuted h (i :: rest) m).1
      = (bulkSetMuted (setMuteState h i m).1 rest m).1 := by
  rcases hsm : setMuteState h i m with ⟨h1, r1⟩
  rcases hb : bulkSetMuted h1 rest m with ⟨h2, rs⟩
  simp only [bulkSetMuted, hsm, hb]
  cases r1 <;> cases rs <;> simp

/-- Peeling one id off a bulk mute on the result side: ok results are
collected in order, any error short-circuits the aggregate. -/
theorem bulkSetMuted_cons_snd (h : Host) (i : Nat) (rest : List Nat)
    (m : Bool) :
    (bulkSetMuted h (i :: rest) m).2 =
      match (setMuteState h i m).2,
          (bulkSetMuted (setMuteState h i m).1 rest m).2 with
      | .ok b, .ok bs => .ok (b :: bs)
      | .error e, _ => .error e
      | .ok _, .error e => .error e := by
  rcases hsm : setMuteState h i m with ⟨h1, r1⟩
  rcases hb : bulkSetMuted h1 rest m with ⟨h2, rs⟩
  simp only [bulkSetMuted, hsm, hb]
  cases r1 <;> cases rs <;> simp

/-- The host reached by a bulk mute: every tab whose id is among the
non-failing requested ids carries the written value, every other tab is
untouched. -/
theorem bulkSetMuted_host (h : Host) (ids : List Nat) (m : Bool) :
    (bulkSetMuted h ids m).1 =
      { h with tabs := h.tabs.map (fun t =>
          if ids.any (fun i => t.id == i && !(h.failing.contains i)) then
            applyMutedUpdate t m
          else t) } := by
  induction ids generalizing h with
  | nil =>
      simp only [bulkSetMuted, List.any_nil, Bool.false_eq_true, if_false]
      cases h with
      | mk tabs failing queryFails => simp
  | cons i rest ih =>
      rw [bulkSetMuted_cons_fst]
      cases hf : h.failing.contains i with
      | true =>
          have hfm : i ∈ h.failing := contains_true_mem hf
          have hs1 : (setMuteState h i m).1 = h := by
            rw [setMuteState_eq, if_pos hf]
          rw [hs1, ih]
          congr 1
          apply List.map_congr_left
          intro t ht
          simp [List.any_cons, hf, hfm]
      | false =>
          have hfm : i ∉ h.failing := contains_false_not_mem hf
          cases hfind : h.tabs.find? (fun t => t.id == i) with
          | none =>
              have hs1 : (setMuteState h i m).1 = h := by
                rw [setMuteState_eq, if_neg (by rw [hf]; decide), hfind]
              rw [hs1, ih]
              congr 1
              apply List.map_congr_left
              intro t ht
              have hti : (t.id == i) = false :=
                Bool.eq_false_iff.mpr (List.find?_eq_none.mp hfind t ht)
              simp [List.any_cons, hti, hf]
          | some t0 =>
              have hs1 : (setMuteState h i m).1 =
                  { h with tabs := h.tabs.map (fun u =>
                      if u.id == i then applyMutedUpdate u m else u) } := by
                rw [setMuteState_eq, if_neg (by rw [hf]; decide), hfind]
              rw [hs1, ih]
              congr 1
              rw [List.map_map]
              apply List.map_congr_left
              intro t ht
              simp only [Function.comp]
              cases hti : (t.id == i) with
              | true =>
                  simp [hti, applyMutedUpdate, List.any_cons, hf, hfm, ite_self]
              | false =>
                  simp [hti, List.any_cons, hf, hfm]

/-- A bulk mute whose every requested id is non-failing and present resolves
with one confirmed value per id, each equal to the written value. -/
theorem bulkSetMuted_ok (h : Host) (ids : List Nat) (m : Bool)
    (hok : ∀ i ∈ ids, h.failing.contains i = false ∧ ∃ t ∈ h.tabs, t.id = i) :
    (bulkSetMuted h ids m).2 = .ok (ids.map (fun _ => m)) := by
  induction ids generalizing h with
  | nil => rfl
  | cons i rest ih =>
      obtain ⟨hfi, t0, ht0, hid0⟩ := hok i (List.mem_cons_self i rest)
      obtain ⟨t1, hfind⟩ : ∃ t1, h.tabs.find? (fun t => t.id == i) = some t1 := by
        have hsome : (h.tabs.find? (fun t => t.id == i)).isSome :=
          List.find?_isSome.mpr ⟨t0, ht0, by simp [hid0]⟩
        exact Option.isSome_iff_exists.mp hsome
      have hsm : setMuteState h i m =
          ({ h with tabs := h.tabs.map (fun u =>
              if u.id == i then applyMutedUpdate u m else u) }, .ok m) := by
        rw [setMuteState_eq, if_neg (by rw [hfi]; decide), hfind]
      have hrest : (bulkSetMuted
          ({ h with tabs := h.tabs.map (fun u =>
              if u.id == i then applyMutedUpdate u m else u) } : Host)
          rest m).2 = .ok (rest.map (fun _ => m)) := by
        apply ih
        intro i2 hi2
        obtain ⟨hf2, t2, ht2, hid2⟩ := hok i2 (List.mem_cons_of_mem i hi2)
        refine ⟨hf2, ?_⟩
        refine ⟨if t2.id == i then applyMutedUpdate t2 m else t2, ?_, ?_⟩
        · exact List.mem_map.mpr ⟨t2, ht2, rfl⟩
        · cases ht : (t2.id == i) with
          | true => simp [ht, applyMutedUpdate, hid2]
          | false => simp [ht, hid2]
      rw [bulkSetMuted_cons_snd, hsm]
      simp only []
      rw [hrest]
      simp

/-- A bulk mute containing a failing id rejects in the aggregate. -/
theorem bulkSetMuted_error (h : Host) (ids : List Nat) (m : Bool)
    (hbad : ∃ i ∈ ids, h.failing.contains i = true) :
    ∃ e, (bulkSetMuted h ids m).2 = .error e := by
  induction ids generalizing h with
  | nil =>
      obtain ⟨i, hi, _⟩ := hbad
      exact absurd hi (List.not_mem_nil i)
  | cons i rest ih =>
      cases hfi : h.failing.contains i with
      | true =>
          have hsm : setMuteState h i m =
              (h, .error (.platform "update failed")) := by
            rw [setMuteState_eq, if_pos hfi]
          refine ⟨.platform "update failed", ?_⟩
          rw [bulkSetMuted_cons_snd, hsm]
      | false =>
          obtain ⟨i2, hi2, hf2⟩ := hbad
          have hi2rest : i2 ∈ rest := by
            cases List.mem_cons.mp hi2 with
            | inl heq => rw [heq] at hf2; rw [hf2] at hfi; exact absurd hfi (by simp)
            | inr hmem => exact hmem
          rcases hsm : setMuteState h i m with ⟨h1, r1⟩
          have hfail1 : h1.failing = h.failing := by
            have hsf := setMuteState_failing h i m
            rw [hsm] at hsf
            exact hsf
          obtain ⟨e2, he2⟩ := ih h1 ⟨i2, hi2rest, by rw [hfail1]; exact hf2⟩
          cases r1 with
          | ok b =>
              exact ⟨e2, by rw [bulkSetMuted_cons_snd, hsm]; simp only []; rw [he2]⟩
          | error e1 =>
              exact ⟨e1, by rw [bulkSetMuted_cons_snd, hsm]⟩

/-- C4: a successful muteAllExcept leaves the excepted tab's record untouched
and writes muted = true on every other existing tab of the host. -/
theorem muteAllExcept_frame (h : Host) (x : Nat) (h2 : Host) (bs : List Bool)
    (hs : muteAllExcept h x = (h2, .ok bs)) :
    h2.tabs = h.tabs.map (fun t =>
      if t.id == x then t else applyMutedUpdate t true) := by
  cases hq : h.queryFails with
  | true =>
      have hg : getAllTabs h = .error (.platform "query failed") := by
        unfold getAllTabs
        rw [if_pos hq]
      unfold muteAllExcept at hs
      rw [hg] at hs
      simp at hs
  | false =>
      have hg : getAllTabs h = .ok h.tabs := by
        unfold getAllTabs
        rw [if_neg (by rw [hq]; decide)]
      set ids := (h.tabs.filter (fun t => t.id != x)).map (fun t => t.id)
        with hids
      have hmae : muteAllExcept h x = bulkSetMuted h ids true := by
        unfold muteAllExcept
        rw [hg]
      rw [hmae] at hs
      have hnofail : ∀ i ∈ ids, h.failing.contains i = false := by
        intro i hi
        cases hf : h.failing.contains i with
        | false => rfl
        | true =>
            obtain ⟨e, he⟩ := bulkSetMuted_error h ids true ⟨i, hi, hf⟩
            rw [hs] at he
            exact absurd he (by simp)
      have htabs := bulkSetMuted_host h ids true
      rw [hs] at htabs
      have h2eq : h2 = { h with tabs := h.tabs.map (fun t =>
          if ids.any (fun i => t.id == i && !(h.failing.contains i)) then
            applyMutedUpdate t true
          else t) } := htabs
      rw [h2eq]
      apply List.map_congr_left
      intro t ht
      cases htx : (t.id == x) with
      | true =>
          have htxe : t.id = x := by simpa using htx
          have hcond :
              (ids.any fun i => t.id == i && !h.failing.contains i) = false := by
            cases hc : (ids.any fun i => t.id == i && !h.failing.contains i) with
            | false => rfl
            | true =>
                obtain ⟨i, hiids, hp⟩ := List.any_eq_true.mp hc
                have hti : t.id = i := by
                  have hand := (Bool.and_eq_true _ _).mp hp
                  simpa using hand.1
                obtain ⟨u, hu, hui⟩ := List.mem_map.mp hiids
                have hflt := List.mem_filter.mp hu
                have hune : u.id ≠ x := by simpa using hflt.2
                rw [hui] at hune
                rw [← hti] at hune
                exact absurd htxe hune
          rw [hcond]
          simp
      | false =>
          have htne : t.id ≠ x := by simpa using htx
          have hmem : t.id ∈ ids := by
            rw [hids]
            exact List.mem_map.mpr
              ⟨t, List.mem_filter.mpr ⟨ht, by simp [htne]⟩, rfl⟩
          have hf : h.failing.contains t.id = false := hnofail _ hmem
          have hcond :
              (ids.any fun i => t.id == i && !h.failing.contains i) = true :=
            List.any_eq_true.mpr ⟨t.id, hmem, by rw [hf]; simp⟩
          rw [hcond]
          simp

/-- C4 witness: on hostAD, muting all except tab 1 succeeds and yields a host
where tab 1 is untouched and tab 4 is muted. -/
theorem muteAllExcept_frame_witness :
    ({ tabs := [tabA, applyMutedUpdate tabD true], failing := [],
        queryFails := false } : Host).tabs
      = hostAD.tabs.map (fun t =>
          if t.id == 1 then t else applyMutedUpdate t true) :=
  muteAllExcept_frame hostAD 1
    { tabs := [tabA, applyMutedUpdate tabD true], failing := [],
      queryFails := false }
    [true] rfl

/-- C5: over a host whose tab query succeeds, every bulk operation (muteAll,
unmuteAll, muteAllExcept) resolves with one host-confirmed value per
qualifying tab exactly when every fired per-tab update succeeds; one failing
qualifying update makes the aggregate reject (for muteAllExcept the excepted
id never qualifies, so its failures are irrelevant); and in either case every
qualifying tab whose update is not failing carries the written value
afterwards while the other tabs keep their old record (partial application,
no rollback). -/
theorem bulkOps_failFast (h : Host) (x : Nat) (hq : h.queryFails = false) :
    ((∀ t ∈ h.tabs, h.failing.contains t.id = false) →
      (muteAll h).2 = .ok (h.tabs.map (fun _ => true)) ∧
      (unmuteAll h).2 = .ok (h.tabs.map (fun _ => false))) ∧
    ((∀ t ∈ h.tabs, t.id ≠ x → h.failing.contains t.id = false) →
      (muteAllExcept h x).2
        = .ok ((h.tabs.filter (fun t => t.id != x)).map (fun _ => true))) ∧
    ((∃ t ∈ h.tabs, h.failing.contains t.id = true) →
      (∃ e, (muteAll h).2 = .error e) ∧ ∃ e, (unmuteAll h).2 = .error e) ∧
    ((∃ t ∈ h.tabs, t.id ≠ x ∧ h.failing.contains t.id = true) →
      ∃ e, (muteAllExcept h x).2 = .error e) ∧
    (muteAll h).1.tabs = h.tabs.map (fun t =>
      if h.failing.contains t.id then t else applyMutedUpdate t true) ∧
    (unmuteAll h).1.tabs = h.tabs.map (fun t =>
      if h.failing.contains t.id then t else applyMutedUpdate t false) ∧
    (muteAllExcept h x).1.tabs = h.tabs.map (fun t =>
      if t.id == x then t
      else if h.failing.contains t.id then t
      else applyMutedUpdate t true) := by
  have hg : getAllTabs h = .ok h.tabs := by
    unfold getAllTabs
    rw [if_neg (by rw [hq]; decide)]
  have hmu : muteAll h = bulkSetMuted h (h.tabs.map (fun t => t.id)) true := by
    unfold muteAll
    rw [hg]
  have hun : unmuteAll h
      = bulkSetMuted h (h.tabs.map (fun t => t.id)) false := by
    unfold unmuteAll
    rw [hg]
  have hmae : muteAllExcept h x
      = bulkSetMuted h
          ((h.tabs.filter (fun t => t.id != x)).map (fun t => t.id)) true := by
    unfold muteAllExcept
    rw [hg]
  have htabs : ∀ m : Bool,
      (bulkSetMuted h (h.tabs.map (fun t => t.id)) m).1.tabs
        = h.tabs.map (fun t =>
            if h.failing.contains t.id then t else applyMutedUpdate t m) := by
    intro m
    rw [bulkSetMuted_host]
    apply List.map_congr_left
    intro t ht
    cases hf : h.failing.contains t.id with
    | false =>
        have hcond : ((h.tabs.map (fun t => t.id)).any
            fun i => t.id == i && !h.failing.contains i) = true :=
          List.any_eq_true.mpr
            ⟨t.id, List.mem_map.mpr ⟨t, ht, rfl⟩, by rw [hf]; simp⟩
        rw [hcond]
        simp
    | true =>
        have hcond : ((h.tabs.map (fun t => t.id)).any
            fun i => t.id == i && !h.failing.contains i) = false := by
          cases hc : ((h.tabs.map (fun t => t.id)).any
              fun i => t.id == i && !h.failing.contains i) with
          | false => rfl
          | true =>
              obtain ⟨i, hiids, hp⟩ := List.any_eq_true.mp hc
              have hand := (Bool.and_eq_true _ _).mp hp
              have hti : t.id = i := by simpa using hand.1
              rw [← hti] at hand
              rw [hf] at hand
              exact absurd hand.2 (by decide)
        rw [hcond]
        simp
  refine ⟨?_, ?_, ?_, ?_, ?_, ?_, ?_⟩
  · intro hnf
    have hhyp : ∀ i ∈ h.tabs.map (fun t => t.id),
        h.failing.contains i = false ∧ ∃ t ∈ h.tabs, t.id = i := by
      intro i hi
      obtain ⟨u, hu, hui⟩ := List.mem_map.mp hi
      rw [← hui]
      exact ⟨hnf u hu, u, hu, rfl⟩
    constructor
    · rw [hmu, bulkSetMuted_ok h _ true hhyp]
      simp
    · rw [hun, bulkSetMuted_ok h _ false hhyp]
      simp
  · intro hnf
    have hhyp : ∀ i ∈ (h.tabs.filter (fun t => t.id != x)).map (fun t => t.id),
        h.failing.contains i = false ∧ ∃ t ∈ h.tabs, t.id = i := by
      intro i hi
      obtain ⟨u, hu, hui⟩ := List.mem_map.mp hi
      have hflt := List.mem_filter.mp hu
      have hune : u.id ≠ x := by simpa using hflt.2
      rw [← hui]
      exact ⟨hnf u hflt.1 hune, u, hflt.1, rfl⟩
    rw [hmae, bulkSetMuted_ok h _ true hhyp]
    simp
  · intro hbad
    obtain ⟨t, ht, hft⟩ := hbad
    have hbad2 : ∃ i ∈ h.tabs.map (fun t => t.id),
        h.failing.contains i = true :=
      ⟨t.id, List.mem_map.mpr ⟨t, ht, rfl⟩, hft⟩
    constructor
    · rw [hmu]
      exact bulkSetMuted_error h _ true hbad2
    · rw [hun]
      exact bulkSetMuted_error h _ false hbad2
  · intro hbad
    obtain ⟨t, ht, htne, hft⟩ := hbad
    rw [hmae]
    exact bulkSetMuted_error h _ true
      ⟨t.id,
        List.mem_map.mpr ⟨t, List.mem_filter.mpr ⟨ht, by simp [htne]⟩, rfl⟩,
        hft⟩
  · rw [hmu]
    exact htabs true
  · rw [hun]
    exact htabs false
  · rw [hmae, bulkSetMuted_host]
    apply List.map_congr_left
    intro t ht
    cases htx : (t.id == x) with
    | true =>
        have htxe : t.id = x := by simpa using htx
        have hcond : (((h.tabs.filter (fun t => t.id != x)).map
              (fun t => t.id)).any
            fun i => t.id == i && !h.failing.contains i) = false := by
          cases hc : (((h.tabs.filter (fun t => t.id != x)).map
                (fun t => t.id)).any
              fun i => t.id == i && !h.failing.contains i) with
          | false => rfl
          | true =>
              obtain ⟨i, hiids, hp⟩ := List.any_eq_true.mp hc
              have hand := (Bool.and_eq_true _ _).mp hp
              have hti : t.id = i := by simpa using hand.1
              obtain ⟨u, hu, hui⟩ := List.mem_map.mp hiids
              have hflt := List.mem_filter.mp hu
              have hune : u.id ≠ x := by simpa using hflt.2
              rw [hui] at hune
              rw [← hti] at hune
              exact absurd htxe hune
        rw [hcond]
        simp
    | false =>
        have htne : t.id ≠ x := by simpa using htx
        have hmem : t.id ∈ (h.tabs.filter (fun t => t.id != x)).map
            (fun t => t.id) :=
          List.mem_map.mpr ⟨t, List.mem_filter.mpr ⟨ht, by simp [htne]⟩, rfl⟩
        cases hf : h.failing.contains t.id with
        | false =>
            have hcond : (((h.tabs.filter (fun t => t.id != x)).map
                  (fun t => t.id)).any
                fun i => t.id == i && !h.failing.contains i) = true :=
              List.any_eq_true.mpr ⟨t.id, hmem, by rw [hf]; simp⟩
            rw [hcond]
            simp
        | true =>
            have hcond : (((h.tabs.filter (fun t => t.id != x)).map
                  (fun t => t.id)).any
                fun i => t.id == i && !h.failing.contains i) = false := by
              cases hc : (((h.tabs.filter (fun t => t.id != x)).map
                    (fun t => t.id)).any
                  fun i => t.id == i && !h.failing.contains i) with
              | false => rfl
              | true =>
                  obtain ⟨i, hiids, hp⟩ := List.any_eq_true.mp hc
                  have hand := (Bool.and_eq_true _ _).mp hp
                  have hti : t.id = i := by simpa using hand.1
                  rw [← hti] at hand
                  rw [hf] at hand
                  exact absurd hand.2 (by decide)
            rw [hcond]
            simp

/-- C5 witness: on hostAB all three bulk operations resolve with one
confirmed value per qualifying tab; on hostFail2, where updates of tab 2
fail, all three aggregates reject when tab 2 qualifies, while excepting
tab 2 itself still succeeds. -/
theorem bulkOps_failFast_witness :
    ((muteAll hostAB).2 = .ok (hostAB.tabs.map (fun _ => true)) ∧
     (unmuteAll hostAB).2 = .ok (hostAB.tabs.map (fun _ => false))) ∧
    (muteAllExcept hostAB 1).2
      = .ok ((hostAB.tabs.filter (fun t => t.id != 1)).map (fun _ => true)) ∧
    ((∃ e, (muteAll hostFail2).2 = .error e) ∧
      ∃ e, (unmuteAll hostFail2).2 = .error e) ∧
    (∃ e, (muteAllExcept hostFail2 1).2 = .error e) ∧
    (muteAllExcept hostFail2 2).2
      = .ok ((hostFail2.tabs.filter (fun t => t.id != 2)).map (fun _ => true)) :=
  ⟨(bulkOps_failFast hostAB 1 rfl).1 (by decide),
   (bulkOps_failFast hostAB 1 rfl).2.1 (by decide),
   (bulkOps_failFast hostFail2 1 rfl).2.2.1 ⟨tabB, by decide, rfl⟩,
   (bulkOps_failFast hostFail2 1 rfl).2.2.2.1 ⟨tabB, by decide, by decide, rfl⟩,
   (bulkOps_failFast hostFail2 2 rfl).2.1 (by decide)⟩

/-- Rendering the rows of a list of well-formed tab records yields exactly
one row per tab, in list order, and never the placeholder. -/
theorem renderRows_spec (tabs : List Tab)
    (hwf : ∀ t ∈ tabs, t.mutedInfo ≠ none) :
    ∃ rows, renderRows tabs = some rows ∧ rows.length = tabs.length ∧
      RenderedNode.quiet ∉ rows ∧
      ∀ i (h1 : i < tabs.length) (h2 : i < rows.length),
        ∃ el, createTabElement (tabs.get ⟨i, h1⟩) = some el ∧
          rows.get ⟨i, h2⟩ = RenderedNode.row el := by
  induction tabs with
  | nil =>
      refine ⟨[], rfl, rfl, by simp, ?_⟩
      intro i h1
      exact absurd h1 (Nat.not_lt_zero i)
  | cons t ts ih =>
      obtain ⟨rows, hr, hl, hq, hidx⟩ :=
        ih (fun u hu => hwf u (List.mem_cons_of_mem t hu))
      have hmi : t.mutedInfo ≠ none := hwf t (List.mem_cons_self t ts)
      obtain ⟨mi, hmieq⟩ : ∃ mi, t.mutedInfo = some mi := by
        cases hm : t.mutedInfo with
        | none => exact absurd hm hmi
        | some mi => exact ⟨mi, rfl⟩
      obtain ⟨el, hel⟩ : ∃ el, createTabElement t = some el := by
        unfold createTabElement
        rw [hmieq]
        exact ⟨_, rfl⟩
      refine ⟨RenderedNode.row el :: rows, ?_, ?_, ?_, ?_⟩
      · unfold renderRows
        rw [hel, hr]
      · simp [hl]
      · intro hq2
        cases List.mem_cons.mp hq2 with
        | inl habs => exact absurd habs.symm (by simp)
        | inr hmem => exact hq hmem
      · intro i h1 h2
        cases i with
        | zero => exact ⟨el, hel, rfl⟩
        | succ j =>
            exact hidx j (Nat.lt_of_succ_lt_succ h1) (Nat.lt_of_succ_lt_succ h2)

/-- C8: rendering the empty audible-tab list yields exactly the quiet
placeholder and no rows; rendering a nonempty list of well-formed tab records
yields exactly one row per tab, in host order, and no placeholder. -/
theorem renderTabsList_spec (tabs : List Tab)
    (hwf : ∀ t ∈ tabs, t.mutedInfo ≠ none) :
    renderTabsList ([] : List Tab) = some [RenderedNode.quiet] ∧
    (tabs ≠ [] → ∃ rows, renderTabsList tabs = some rows ∧
      rows.length = tabs.length ∧
      RenderedNode.quiet ∉ rows ∧
      ∀ i (h1 : i < tabs.length) (h2 : i < rows.length),
        ∃ el, createTabElement (tabs.get ⟨i, h1⟩) = some el ∧
          rows.get ⟨i, h2⟩ = RenderedNode.row el) := by
  refine ⟨rfl, ?_⟩
  intro hne
  have hlen : (tabs.length == 0) = false := by
    have : tabs.length ≠ 0 := by
      intro h0
      exact hne (List.length_eq_zero.mp h0)
    simp [this]
  unfold renderTabsList
  rw [hlen]
  simp only [Bool.false_eq_true, if_false]
  exact renderRows_spec tabs hwf

/-- C8 witness: the two-tab list [tabA, tabB] renders to two rows and no
placeholder, and the empty list renders to the placeholder alone. -/
theorem renderTabsList_spec_witness :
    renderTabsList ([] : List Tab) = some [RenderedNode.quiet] ∧
    (∃ rows, renderTabsList [tabA, tabB] = some rows ∧
      rows.length = [tabA, tabB].length ∧
      RenderedNode.quiet ∉ rows ∧
      ∀ i (h1 : i < [tabA, tabB].length) (h2 : i < rows.length),
        ∃ el, createTabElement ([tabA, tabB].get ⟨i, h1⟩) = some el ∧
          rows.get ⟨i, h2⟩ = RenderedNode.row el) :=
  ⟨(renderTabsList_spec [tabA, tabB] (by decide)).1,
   (renderTabsList_spec [tabA, tabB] (by decide)).2 (by decide)⟩

/-- C1 at its failing input.  First scenario: the popup opens over hostMuted,
whose single tab is muted and silent; updateGlobalMuteButton renders the
label from the stale allTabsMuted variable (still false, popup.js:10) because
checkAllTabsMutedState() is not awaited, so the button shows Mute all, while
the flag freshly derived from the host at that render is true, whose label
is Unmute all.  Second scenario: on hostD (one unmuted silent tab) a
successful Mute all click re-renders the label before the re-derived flag
lands, so the button still shows Mute all although the re-query of the
mutated host derives AllMuted = true. -/
theorem updateGlobalMuteButton_staleLabel :
    (updateGlobalMuteButton hostMuted popupFresh).globalLabel = "Mute all" ∧
    checkAllTabsMutedState hostMuted = true ∧
    globalMuteLabel (checkAllTabsMutedState hostMuted) popupFresh.currentTab
      = "Unmute all" ∧
    (updateGlobalMuteButton hostMuted popupFresh).globalLabel ≠
      globalMuteLabel (checkAllTabsMutedState hostMuted)
        popupFresh.currentTab ∧
    (handleGlobalMuteButtonClick hostD popupAfterD).2.globalLabel
      = "Mute all" ∧
    checkAllTabsMutedState (handleGlobalMuteButtonClick hostD popupAfterD).1
      = true ∧
    globalMuteLabel
      (checkAllTabsMutedState (handleGlobalMuteButtonClick hostD popupAfterD).1)
      popupAfterD.currentTab = "Unmute all" := by
  refine ⟨rfl, rfl, rfl, ?_, rfl, rfl, rfl⟩
  decide

end SoundManager
